import Mathlib

/-!
Verification of the XplaneFlightData calculators (turn, VNAV, wind).

The three C++ programs compute closed-form trigonometric formulas over
IEEE doubles.  This development embeds them shallowly over the real
numbers: each C++ `double` expression becomes the corresponding exact
real expression, each intermediate variable a `let`, each branch an
`if`.  The structures mirror the C++ result records field by field.
-/

/-! ## Shared constants (turn_calculator.cpp / vnav_calculator.cpp / wind_calculator.cpp) -/

noncomputable def DEG_TO_RAD : ℝ := Real.pi / 180.0

noncomputable def RAD_TO_DEG : ℝ := 180.0 / Real.pi

def GRAVITY : ℝ := 9.80665

def KTS_TO_MS : ℝ := 0.514444

def NM_TO_FT : ℝ := 6076.12

def STANDARD_RATE : ℝ := 3.0

/-! ## Turn calculator (turn_calculator.cpp) -/

/-- C++ `struct TurnData` of turn_calculator.cpp. -/
structure TurnData where
  radius_nm : ℝ
  radius_ft : ℝ
  turn_rate_dps : ℝ
  lead_distance_nm : ℝ
  lead_distance_ft : ℝ
  time_to_turn_sec : ℝ
  load_factor : ℝ
  standard_rate_bank : ℝ

/-- C++ `calculate_turn_performance` of turn_calculator.cpp, line by line.
The C++ assigns `result.standard_rate_bank` after the branch in both
cases; here it is bound once before the branch and used in both arms. -/
noncomputable def calculate_turn_performance
    (tas_kts bank_deg course_change_deg : ℝ) : TurnData :=
  let v_ms := tas_kts * KTS_TO_MS
  let phi_rad := bank_deg * DEG_TO_RAD
  let delta_psi_rad := course_change_deg * DEG_TO_RAD
  let load_factor := 1.0 / Real.cos phi_rad
  let tan_phi := Real.tan phi_rad
  let omega_std_rad_s := STANDARD_RATE * DEG_TO_RAD
  let phi_std_rad := Real.arctan ((omega_std_rad_s * v_ms) / GRAVITY)
  let standard_rate_bank := phi_std_rad * RAD_TO_DEG
  if |tan_phi| < 0.001 then
    { radius_nm := 999.9
      radius_ft := 999900.0
      turn_rate_dps := 0.0
      lead_distance_nm := 0.0
      lead_distance_ft := 0.0
      time_to_turn_sec := 999.9
      load_factor := load_factor
      standard_rate_bank := standard_rate_bank }
  else
    let radius_m := (v_ms * v_ms) / (GRAVITY * tan_phi)
    let radius_ft := radius_m * 3.28084
    let radius_nm := radius_ft / NM_TO_FT
    let omega_rad_s := (GRAVITY * tan_phi) / v_ms
    let turn_rate_dps := omega_rad_s * RAD_TO_DEG
    let lead_m := radius_m * Real.tan (delta_psi_rad / 2.0)
    let lead_distance_ft := lead_m * 3.28084
    let lead_distance_nm := lead_distance_ft / NM_TO_FT
    let time_to_turn_sec :=
      if turn_rate_dps > 0.01 then |course_change_deg| / turn_rate_dps else 999.9
    { radius_nm := radius_nm
      radius_ft := radius_ft
      turn_rate_dps := turn_rate_dps
      lead_distance_nm := lead_distance_nm
      lead_distance_ft := lead_distance_ft
      time_to_turn_sec := time_to_turn_sec
      load_factor := load_factor
      standard_rate_bank := standard_rate_bank }

/-- C++ `main` of turn_calculator.cpp, abstracted over the OS boundary:
each argv entry is `some x` when `std::stod` parses it to the value `x`
and `none` when parsing throws; `Except.error ()` stands for the paths
that print a diagnostic or usage text to stderr, print nothing to
stdout, and return exit code 1; `Except.ok r` stands for printing the
JSON of `r` to stdout and returning exit code 0. -/
noncomputable def turn_main (args : List (Option ℝ)) : Except Unit TurnData :=
  match args with
  | [some tas_kts, some bank_deg, some course_change_deg] =>
    if tas_kts ≤ 0 then Except.error ()
    else if |bank_deg| > 85 then Except.error ()
    else Except.ok (calculate_turn_performance tas_kts bank_deg course_change_deg)
  | _ => Except.error ()

/-! ## VNAV calculator (vnav_calculator.cpp) -/

/-- C++ `struct VNAVData` of vnav_calculator.cpp.  The two C++ `bool`
fields become `Prop` (decided from real-number comparisons). -/
structure VNAVData where
  altitude_to_lose_ft : ℝ
  flight_path_angle_deg : ℝ
  required_vs_fpm : ℝ
  tod_distance_nm : ℝ
  time_to_constraint_min : ℝ
  distance_per_1000ft : ℝ
  is_descent : Prop
  on_idle_path : Prop

/-- C++ `calculate_vnav` of vnav_calculator.cpp, line by line.  The C++
overwrites its `distance_nm` / `groundspeed_kts` parameters when below
the floors; here the clamped values shadow the parameters. -/
noncomputable def calculate_vnav
    (current_alt_ft target_alt_ft distance_nm groundspeed_kts : ℝ) : VNAVData :=
  let altitude_change_ft := target_alt_ft - current_alt_ft
  let altitude_to_lose_ft := -altitude_change_ft
  let is_descent := altitude_change_ft < 0
  let distance_nm := if distance_nm < 0.01 then 0.01 else distance_nm
  let groundspeed_kts := if groundspeed_kts < 1.0 then 1.0 else groundspeed_kts
  let distance_ft := distance_nm * NM_TO_FT
  let gamma_rad := Real.arctan (altitude_change_ft / distance_ft)
  let flight_path_angle_deg := gamma_rad * RAD_TO_DEG
  let required_vs_fpm := 101.27 * groundspeed_kts * Real.tan gamma_rad
  let tod_distance_nm :=
    if altitude_change_ft < 0 then
      |altitude_change_ft| / (NM_TO_FT * Real.tan (3.0 * DEG_TO_RAD))
    else 0.0
  let time_to_constraint_min := (distance_nm / groundspeed_kts) * 60.0
  let distance_per_1000ft :=
    if |altitude_change_ft| > 10.0 then
      (distance_nm * 1000.0) / |altitude_change_ft|
    else 999.9
  let on_idle_path :=
    if altitude_change_ft < 0 then
      |flight_path_angle_deg| ≥ 2.0 ∧ |flight_path_angle_deg| ≤ 4.0
    else
      flight_path_angle_deg ≥ 0.5 ∧ flight_path_angle_deg ≤ 15.0
  { altitude_to_lose_ft := altitude_to_lose_ft
    flight_path_angle_deg := flight_path_angle_deg
    required_vs_fpm := required_vs_fpm
    tod_distance_nm := tod_distance_nm
    time_to_constraint_min := time_to_constraint_min
    distance_per_1000ft := distance_per_1000ft
    is_descent := is_descent
    on_idle_path := on_idle_path }

/-- C++ `struct VNAVHelpers` of vnav_calculator.cpp. -/
structure VNAVHelpers where
  vs_for_3deg : ℝ
  vs_for_5deg : ℝ
  distance_remaining_at_current_vs : ℝ

/-- C++ `calculate_vnav_helpers` of vnav_calculator.cpp. -/
noncomputable def calculate_vnav_helpers
    (groundspeed_kts current_vs_fpm altitude_change_ft : ℝ) : VNAVHelpers :=
  let vs_for_3deg := -101.27 * groundspeed_kts * Real.tan (3.0 * DEG_TO_RAD)
  let vs_for_5deg := -101.27 * groundspeed_kts * Real.tan (5.0 * DEG_TO_RAD)
  let distance_remaining_at_current_vs :=
    if |current_vs_fpm| > 10.0 ∧ groundspeed_kts > 1.0 then
      let time_min := altitude_change_ft / current_vs_fpm
      let d := (time_min * groundspeed_kts) / 60.0
      if d < 0 then 999.9 else d
    else 999.9
  { vs_for_3deg := vs_for_3deg
    vs_for_5deg := vs_for_5deg
    distance_remaining_at_current_vs := distance_remaining_at_current_vs }

/-! ## Wind calculator (wind_calculator.cpp) -/

/-- C++ `struct WindComponents` of wind_calculator.cpp. -/
structure WindComponents where
  headwind : ℝ
  crosswind : ℝ
  total_wind : ℝ
  wca : ℝ
  drift : ℝ

/-- C++ `normalize_angle` of wind_calculator.cpp.  The C++ loops
`while (angle < 0) angle += 360` then `while (angle >= 360) angle -= 360`;
for any real input the loop's unique result is the representative of
`angle` modulo 360 in `[0, 360)`, written here in closed form.  The
lemmas `normalize_angle_nonneg`, `normalize_angle_lt`,
`normalize_angle_eq_self` and `normalize_angle_add_360` recover the
loop's defining equations. -/
noncomputable def normalize_angle (angle : ℝ) : ℝ :=
  angle - 360.0 * ⌊angle / 360.0⌋

/-- C++ `calculate_wind` of wind_calculator.cpp, line by line; the C++
reassigns `track`/`heading`/`wind_dir`/`result.drift` in place, modelled
by shadowing. -/
noncomputable def calculate_wind
    (track heading wind_dir wind_speed : ℝ) : WindComponents :=
  let track := normalize_angle track
  let heading := normalize_angle heading
  let wind_dir := normalize_angle wind_dir
  let drift0 := normalize_angle (track - heading)
  let drift := if drift0 > 180.0 then drift0 - 360.0 else drift0
  let wind_from_relative0 := normalize_angle (wind_dir - track)
  let wind_from_relative :=
    if wind_from_relative0 > 180.0 then wind_from_relative0 - 360.0
    else wind_from_relative0
  let wind_from_rad := wind_from_relative * DEG_TO_RAD
  { headwind := -wind_speed * Real.cos wind_from_rad
    crosswind := wind_speed * Real.sin wind_from_rad
    total_wind := wind_speed
    wca := 0.0
    drift := drift }

/-! ## JSON field lists (print_json functions and result records)

For the serialization claims the relevant observable is the ordered
list of JSON keys each `print_json` emits, compared with the ordered
list of field names of the result records. -/

/-- Field names of `TurnData`, in declaration order. -/
def TurnData_field_names : List String :=
  ["radius_nm", "radius_ft", "turn_rate_dps", "lead_distance_nm",
   "lead_distance_ft", "time_to_turn_sec", "load_factor", "standard_rate_bank"]

/-- JSON keys printed by `print_json` of turn_calculator.cpp, in order. -/
def turn_json_keys : List String :=
  ["radius_nm", "radius_ft", "turn_rate_dps", "lead_distance_nm",
   "lead_distance_ft", "time_to_turn_sec", "load_factor", "standard_rate_bank"]

/-- Field names of `VNAVData`, in declaration order. -/
def VNAVData_field_names : List String :=
  ["altitude_to_lose_ft", "flight_path_angle_deg", "required_vs_fpm",
   "tod_distance_nm", "time_to_constraint_min", "distance_per_1000ft",
   "is_descent", "on_idle_path"]

/-- Field names of `VNAVHelpers`, in declaration order. -/
def VNAVHelpers_field_names : List String :=
  ["vs_for_3deg", "vs_for_5deg", "distance_remaining_at_current_vs"]

/-- JSON keys printed by `print_json` of vnav_calculator.cpp, in order. -/
def vnav_json_keys : List String :=
  ["altitude_to_lose_ft", "flight_path_angle_deg", "required_vs_fpm",
   "tod_distance_nm", "time_to_constraint_min", "distance_per_1000ft",
   "is_descent", "on_idle_path",
   "vs_for_3deg", "vs_for_5deg", "distance_at_current_vs_nm"]

/-- Field names of `WindComponents`, in declaration order. -/
def WindComponents_field_names : List String :=
  ["headwind", "crosswind", "total_wind", "wca", "drift"]

/-- JSON keys printed by `print_json` of wind_calculator.cpp, in order. -/
def wind_json_keys : List String :=
  ["headwind", "crosswind", "total_wind", "wca", "drift"]

/-! ## Properties of `normalize_angle`

These recover the defining equations of the C++ normalization loop:
the result lies in `[0, 360)`, inputs already in range are unchanged,
and one loop iteration (adding or subtracting 360) does not change the
result. -/

theorem normalize_angle_nonneg (x : ℝ) : 0 ≤ normalize_angle x := by
  unfold normalize_angle
  have h := Int.floor_le (x / 360.0)
  nlinarith [h]

theorem normalize_angle_lt (x : ℝ) : normalize_angle x < 360 := by
  unfold normalize_angle
  have h := Int.lt_floor_add_one (x / 360.0)
  nlinarith [h]

theorem normalize_angle_eq_self {x : ℝ} (h0 : 0 ≤ x) (h1 : x < 360) :
    normalize_angle x = x := by
  unfold normalize_angle
  have : ⌊x / 360.0⌋ = 0 := by
    apply Int.floor_eq_zero_iff.mpr
    constructor
    · positivity
    · norm_num
      linarith
  rw [this]
  norm_num

theorem normalize_angle_add_int (x : ℝ) (k : ℤ) :
    normalize_angle (x + 360 * k) = normalize_angle x := by
  unfold normalize_angle
  have h : (x + 360 * (k:ℝ)) / 360.0 = x / 360.0 + k := by
    field_simp
    ring
  rw [h, Int.floor_add_int]
  push_cast
  ring

theorem normalize_angle_add_360 (x : ℝ) :
    normalize_angle (x + 360) = normalize_angle x := by
  have h := normalize_angle_add_int x 1
  norm_num at h
  exact h

/-! ## Claim theorems -/

/-- Claim C1, counterexample: at tas 100 kt, bank 0°, course change 90°
the wings-level branch is taken and `radius_ft = 999900.0` while
`radius_nm * 6076.12 = 999.9 * 6076.12 ≈ 6075512.4`, so the claimed
conversion identity fails for the radius in the sentinel branch. -/
theorem C1_radius_sentinel_counterexample :
    ¬ ((calculate_turn_performance 100 0 90).radius_ft
       = (calculate_turn_performance 100 0 90).radius_nm * 6076.12) := by
  have h : Real.tan ((0:ℝ) * DEG_TO_RAD) = 0 := by rw [zero_mul, Real.tan_zero]
  simp only [calculate_turn_performance, h, abs_zero]
  norm_num

/-- Claim C1, amended: for every valid turn input the lead-distance
conversion `lead_distance_ft = lead_distance_nm * 6076.12` holds in
both branches, and the radius conversion
`radius_ft = radius_nm * 6076.12` holds in the computed branch; in the
wings-level sentinel branch the radius fields are the independent
sentinels 999.9 nm and 999900.0 ft, which do not satisfy the
conversion. -/
theorem C1_unit_conversion_amended (tas_kts bank_deg course_change_deg : ℝ)
    (htas : 0 < tas_kts) (hbank : |bank_deg| ≤ 85) :
    (calculate_turn_performance tas_kts bank_deg course_change_deg).lead_distance_ft
      = (calculate_turn_performance tas_kts bank_deg course_change_deg).lead_distance_nm
        * 6076.12
    ∧ (¬ |Real.tan (bank_deg * DEG_TO_RAD)| < 0.001 →
        (calculate_turn_performance tas_kts bank_deg course_change_deg).radius_ft
          = (calculate_turn_performance tas_kts bank_deg course_change_deg).radius_nm
            * 6076.12)
    ∧ (|Real.tan (bank_deg * DEG_TO_RAD)| < 0.001 →
        (calculate_turn_performance tas_kts bank_deg course_change_deg).radius_nm = 999.9
        ∧ (calculate_turn_performance tas_kts bank_deg course_change_deg).radius_ft
            = 999900.0) := by
  have key : ∀ x : ℝ, x = x / 6076.12 * 6076.12 := fun x =>
    (div_mul_cancel₀ x (by norm_num)).symm
  unfold calculate_turn_performance
  simp only [NM_TO_FT]
  split_ifs with h h2
  · exact ⟨by norm_num, fun hc => absurd h hc, fun _ => ⟨rfl, rfl⟩⟩
  · exact ⟨key _, fun _ => key _, fun hc => absurd hc h⟩
  · exact ⟨key _, fun _ => key _, fun hc => absurd hc h⟩

/-- Claim C1, witness at tas 250 kt, bank 25°, course change 90°. -/
theorem C1_unit_conversion_amended_witness :
    (0:ℝ) < 250 ∧ |(25:ℝ)| ≤ 85
    ∧ ((calculate_turn_performance 250 25 90).lead_distance_ft
        = (calculate_turn_performance 250 25 90).lead_distance_nm * 6076.12
      ∧ (¬ |Real.tan (25 * DEG_TO_RAD)| < 0.001 →
          (calculate_turn_performance 250 25 90).radius_ft
            = (calculate_turn_performance 250 25 90).radius_nm * 6076.12)
      ∧ (|Real.tan (25 * DEG_TO_RAD)| < 0.001 →
          (calculate_turn_performance 250 25 90).radius_nm = 999.9
          ∧ (calculate_turn_performance 250 25 90).radius_ft = 999900.0)) :=
  ⟨by norm_num, by norm_num,
    C1_unit_conversion_amended 250 25 90 (by norm_num) (by norm_num)⟩

/-- Claim C2: for every valid turn input, if the tangent of the bank
angle is below 0.001 in magnitude then the wings-level sentinels are
returned (radius 999.9 nm / 999900.0 ft, rate 0, lead 0 nm / 0 ft,
time 999.9 s); and in both branches the standard-rate bank equals
atan((3·π/180)·tas·0.514444/9.80665)·180/π, independent of bank angle
and course change. -/
theorem C2_degenerate_and_standard_rate (tas_kts bank_deg course_change_deg : ℝ)
    (htas : 0 < tas_kts) (hbank : |bank_deg| ≤ 85) :
    (|Real.tan (bank_deg * DEG_TO_RAD)| < 0.001 →
      (calculate_turn_performance tas_kts bank_deg course_change_deg).radius_nm = 999.9
      ∧ (calculate_turn_performance tas_kts bank_deg course_change_deg).radius_ft
          = 999900.0
      ∧ (calculate_turn_performance tas_kts bank_deg course_change_deg).turn_rate_dps
          = 0.0
      ∧ (calculate_turn_performance tas_kts bank_deg course_change_deg).lead_distance_nm
          = 0.0
      ∧ (calculate_turn_performance tas_kts bank_deg course_change_deg).lead_distance_ft
          = 0.0
      ∧ (calculate_turn_performance tas_kts bank_deg course_change_deg).time_to_turn_sec
          = 999.9)
    ∧ (calculate_turn_performance tas_kts bank_deg course_change_deg).standard_rate_bank
        = Real.arctan (3 * (Real.pi / 180) * tas_kts * 0.514444 / 9.80665)
            * (180 / Real.pi) := by
  have hargeq : STANDARD_RATE * DEG_TO_RAD * (tas_kts * KTS_TO_MS) / GRAVITY
      = 3 * (Real.pi / 180) * tas_kts * 0.514444 / 9.80665 := by
    unfold STANDARD_RATE DEG_TO_RAD KTS_TO_MS GRAVITY
    norm_num
    ring
  have harg : Real.arctan (STANDARD_RATE * DEG_TO_RAD * (tas_kts * KTS_TO_MS) / GRAVITY)
      * RAD_TO_DEG
      = Real.arctan (3 * (Real.pi / 180) * tas_kts * 0.514444 / 9.80665)
          * (180 / Real.pi) := by
    rw [hargeq]
    unfold RAD_TO_DEG
    norm_num
  unfold calculate_turn_performance
  simp only []
  split_ifs with h h2
  · exact ⟨fun _ => ⟨rfl, rfl, rfl, rfl, rfl, rfl⟩, harg⟩
  · exact ⟨fun hc => absurd hc h, harg⟩
  · exact ⟨fun hc => absurd hc h, harg⟩

/-- Claim C2, witness at tas 250 kt, bank 0°, course change 90°:
the wings-level branch fires and the standard-rate bank matches the
closed formula. -/
theorem C2_degenerate_and_standard_rate_witness :
    (0:ℝ) < 250 ∧ |(0:ℝ)| ≤ 85
    ∧ |Real.tan ((0:ℝ) * DEG_TO_RAD)| < 0.001
    ∧ (calculate_turn_performance 250 0 90).radius_nm = 999.9
    ∧ (calculate_turn_performance 250 0 90).time_to_turn_sec = 999.9
    ∧ (calculate_turn_performance 250 0 90).standard_rate_bank
        = Real.arctan (3 * (Real.pi / 180) * 250 * 0.514444 / 9.80665)
            * (180 / Real.pi) := by
  have h0 : |Real.tan ((0:ℝ) * DEG_TO_RAD)| < 0.001 := by
    rw [zero_mul, Real.tan_zero]
    norm_num
  have h := C2_degenerate_and_standard_rate 250 0 90 (by norm_num) (by norm_num)
  exact ⟨by norm_num, by norm_num, h0, (h.1 h0).1, (h.1 h0).2.2.2.2.2, h.2⟩

/-- Claim C3: after validation (distance ≥ 0, groundspeed > 0),
`calculate_vnav` silently floors distances below 0.01 nm to 0.01 and
groundspeeds below 1.0 kt to 1.0, and with the clamped values returns
flight_path_angle_deg = atan(Δh / (distance·6076.12))·180/π and
required_vs_fpm = 101.27·groundspeed·tan(γ). -/
theorem C3_vnav_clamped_formulas
    (current_alt_ft target_alt_ft distance_nm groundspeed_kts : ℝ)
    (hd : 0 ≤ distance_nm) (hg : 0 < groundspeed_kts) :
    (calculate_vnav current_alt_ft target_alt_ft distance_nm
        groundspeed_kts).flight_path_angle_deg
      = Real.arctan ((target_alt_ft - current_alt_ft)
          / ((if distance_nm < 0.01 then 0.01 else distance_nm) * 6076.12))
        * (180 / Real.pi)
    ∧ (calculate_vnav current_alt_ft target_alt_ft distance_nm
        groundspeed_kts).required_vs_fpm
      = 101.27 * (if groundspeed_kts < 1.0 then 1.0 else groundspeed_kts)
        * Real.tan (Real.arctan ((target_alt_ft - current_alt_ft)
            / ((if distance_nm < 0.01 then 0.01 else distance_nm) * 6076.12))) := by
  unfold calculate_vnav NM_TO_FT RAD_TO_DEG
  simp only []
  constructor <;> norm_num

/-- Claim C3, witness at current 0 ft, target 1000 ft, distance 0 nm,
groundspeed 0.5 kt (both floors active). -/
theorem C3_vnav_clamped_formulas_witness :
    (0:ℝ) ≤ 0 ∧ (0:ℝ) < 0.5
    ∧ ((calculate_vnav 0 1000 0 0.5).flight_path_angle_deg
        = Real.arctan (((1000:ℝ) - 0)
            / ((if (0:ℝ) < 0.01 then 0.01 else 0) * 6076.12))
          * (180 / Real.pi)
      ∧ (calculate_vnav 0 1000 0 0.5).required_vs_fpm
        = 101.27 * (if (0.5:ℝ) < 1.0 then 1.0 else 0.5)
          * Real.tan (Real.arctan (((1000:ℝ) - 0)
              / ((if (0:ℝ) < 0.01 then 0.01 else 0) * 6076.12)))) :=
  ⟨le_refl 0, by norm_num,
    C3_vnav_clamped_formulas 0 1000 0 0.5 (le_refl 0) (by norm_num)⟩

/-- Claim C4: every output of `calculate_wind` is invariant under
shifting track, heading, or wind direction by any integer multiple of
360 degrees. -/
theorem C4_wind_mod360_invariance (track heading wind_dir wind_speed : ℝ)
    (kt kh kw : ℤ) (hs : 0 ≤ wind_speed) :
    calculate_wind (track + 360 * kt) (heading + 360 * kh)
        (wind_dir + 360 * kw) wind_speed
      = calculate_wind track heading wind_dir wind_speed := by
  unfold calculate_wind
  rw [normalize_angle_add_int, normalize_angle_add_int, normalize_angle_add_int]

/-- Claim C4, witness: shifting all three angles of the zero input by
one full turn leaves the result unchanged. -/
theorem C4_wind_mod360_invariance_witness :
    (0:ℝ) ≤ 0
    ∧ calculate_wind (0 + 360 * ((1:ℤ):ℝ)) (0 + 360 * ((1:ℤ):ℝ))
        (0 + 360 * ((1:ℤ):ℝ)) 0
      = calculate_wind 0 0 0 0 :=
  ⟨le_refl 0, C4_wind_mod360_invariance 0 0 0 0 1 1 1 (le_refl 0)⟩

/-- Claim C5: the turn calculator's main succeeds (exit 0, JSON of the
fully computed record on stdout) exactly on three parsed arguments
with tas > 0 and |bank| ≤ 85, so bank = ±85 is accepted; every other
argument list (wrong count, parse failure, tas ≤ 0, |bank| > 85) takes
the error path (exit 1, diagnostic on stderr, no stdout). -/
theorem C5_turn_cli_contract (args : List (Option ℝ)) :
    (∀ a b c, args = [some a, some b, some c] → 0 < a → |b| ≤ 85 →
        turn_main args = Except.ok (calculate_turn_performance a b c))
    ∧ (∀ r, turn_main args = Except.ok r →
        ∃ a b c, args = [some a, some b, some c] ∧ 0 < a ∧ |b| ≤ 85
          ∧ r = calculate_turn_performance a b c) := by
  constructor
  · rintro a b c rfl ha hb
    simp only [turn_main]
    rw [if_neg (not_le.mpr ha), if_neg (not_lt.mpr hb)]
  · intro r hr
    unfold turn_main at hr
    split at hr
    case _ a b c =>
      split_ifs at hr with ha hb
      cases hr
      exact ⟨a, b, c, rfl, not_le.mp ha, not_lt.mp hb, rfl⟩
    case _ => cases hr

/-- Claim C5, witness: the boundary input tas 250 kt, bank 85°, course
change 90° is accepted and produces the computed record. -/
theorem C5_turn_cli_contract_witness :
    turn_main [some 250, some 85, some 90]
      = Except.ok (calculate_turn_performance 250 85 90) :=
  (C5_turn_cli_contract [some 250, some 85, some 90]).1 250 85 90 rfl
    (by norm_num) (by norm_num)

/-- Claim C6: for valid VNAV inputs, when the altitude change exceeds
10 ft in magnitude, distance_per_1000ft times that magnitude equals
the clamped distance times 1000; at or below 10 ft the field is the
sentinel 999.9. -/
theorem C6_distance_per_1000ft
    (current_alt_ft target_alt_ft distance_nm groundspeed_kts : ℝ)
    (hd : 0 ≤ distance_nm) (hg : 0 < groundspeed_kts) :
    (10 < |target_alt_ft - current_alt_ft| →
      (calculate_vnav current_alt_ft target_alt_ft distance_nm
          groundspeed_kts).distance_per_1000ft
        * |target_alt_ft - current_alt_ft|
      = (if distance_nm < 0.01 then 0.01 else distance_nm) * 1000)
    ∧ (|target_alt_ft - current_alt_ft| ≤ 10 →
      (calculate_vnav current_alt_ft target_alt_ft distance_nm
          groundspeed_kts).distance_per_1000ft = 999.9) := by
  unfold calculate_vnav
  simp only []
  constructor
  · intro h
    rw [if_pos (by norm_num; linarith)]
    rw [div_mul_cancel₀]
    · norm_num
    · intro habs
      rw [habs] at h
      norm_num at h
  · intro h
    rw [if_neg (by norm_num; linarith)]

/-- Claim C6, witness at current 0 ft, target 1000 ft, distance 10 nm,
groundspeed 100 kt. -/
theorem C6_distance_per_1000ft_witness :
    (0:ℝ) ≤ 10 ∧ (0:ℝ) < 100 ∧ 10 < |(1000:ℝ) - 0|
    ∧ (calculate_vnav 0 1000 10 100).distance_per_1000ft * |(1000:ℝ) - 0|
      = (if (10:ℝ) < 0.01 then 0.01 else 10) * 1000 := by
  have h := C6_distance_per_1000ft 0 1000 10 100 (by norm_num) (by norm_num)
  exact ⟨by norm_num, by norm_num, by norm_num, h.1 (by norm_num)⟩

/-- Claim C7, counterexample: the VNAV JSON key list is not the
concatenation of the `VNAVData` and `VNAVHelpers` field-name lists:
the last key is "distance_at_current_vs_nm" while the corresponding
field is named `distance_remaining_at_current_vs`. -/
theorem C7_json_keys_counterexample :
    vnav_json_keys ≠ VNAVData_field_names ++ VNAVHelpers_field_names := by
  decide

/-- Claim C7, amended: the turn and wind JSON keys match their record
field names exactly and in order; the VNAV key list has the right
length and matches the 10 first record field names in order, but its
final key is "distance_at_current_vs_nm" whereas the record field is
`distance_remaining_at_current_vs`. -/
theorem C7_json_keys_amended :
    turn_json_keys = TurnData_field_names
    ∧ wind_json_keys = WindComponents_field_names
    ∧ vnav_json_keys.length
        = (VNAVData_field_names ++ VNAVHelpers_field_names).length
    ∧ vnav_json_keys.take 10
        = (VNAVData_field_names ++ VNAVHelpers_field_names).take 10
    ∧ vnav_json_keys.getLast? = some "distance_at_current_vs_nm"
    ∧ (VNAVData_field_names ++ VNAVHelpers_field_names).getLast?
        = some "distance_remaining_at_current_vs" :=
  ⟨rfl, rfl, rfl, rfl, rfl, rfl⟩

/-- Claim C8: for every valid wind input the wind-correction-angle
field of `calculate_wind` is the fixed placeholder 0.0. -/
theorem C8_wca_always_zero (track heading wind_dir wind_speed : ℝ)
    (hs : 0 ≤ wind_speed) :
    (calculate_wind track heading wind_dir wind_speed).wca = 0 := by
  simp [calculate_wind]
  norm_num

/-- Claim C8, witness at the zero input. -/
theorem C8_wca_always_zero_witness :
    (0:ℝ) ≤ 0 ∧ (calculate_wind 0 0 0 0).wca = 0 :=
  ⟨le_refl 0, C8_wca_always_zero 0 0 0 0 (le_refl 0)⟩

/-- Claim C9: for a non-degenerate left bank (tas > 0, bank ≥ -85°,
tan of the bank angle at most -0.001) the computed branch returns
strictly negative radius (nm and ft) and turn rate, and the
time-to-turn is the sentinel 999.9 for every course change, because
the time formula only applies when the turn rate exceeds 0.01 deg/s. -/
theorem C9_left_bank_negative_outputs (tas_kts bank_deg course_change_deg : ℝ)
    (htas : 0 < tas_kts) (hbank : -85 ≤ bank_deg)
    (htan : Real.tan (bank_deg * DEG_TO_RAD) ≤ -0.001) :
    (calculate_turn_performance tas_kts bank_deg course_change_deg).radius_nm < 0
    ∧ (calculate_turn_performance tas_kts bank_deg course_change_deg).radius_ft < 0
    ∧ (calculate_turn_performance tas_kts bank_deg course_change_deg).turn_rate_dps < 0
    ∧ (calculate_turn_performance tas_kts bank_deg course_change_deg).time_to_turn_sec
        = 999.9 := by
  set t := Real.tan (bank_deg * DEG_TO_RAD) with ht
  have htneg : t < 0 := lt_of_le_of_lt htan (by norm_num)
  have hnd : ¬ |t| < 0.001 := by
    rw [abs_lt]
    push_neg
    intro hlow
    linarith
  have hv : 0 < tas_kts * KTS_TO_MS := by
    unfold KTS_TO_MS
    positivity
  have hgt : GRAVITY * t < 0 := mul_neg_of_pos_of_neg (by norm_num [GRAVITY]) htneg
  have hrm : (tas_kts * KTS_TO_MS) * (tas_kts * KTS_TO_MS) / (GRAVITY * t) < 0 :=
    div_neg_of_pos_of_neg (by positivity) hgt
  have hrd : (0:ℝ) < RAD_TO_DEG := by
    unfold RAD_TO_DEG
    positivity
  have hrate : GRAVITY * t / (tas_kts * KTS_TO_MS) * RAD_TO_DEG < 0 :=
    mul_neg_of_neg_of_pos (div_neg_of_neg_of_pos hgt hv) hrd
  have hnotrate : ¬ GRAVITY * t / (tas_kts * KTS_TO_MS) * RAD_TO_DEG > 0.01 := by
    push_neg
    linarith
  unfold calculate_turn_performance
  simp only []
  rw [← ht]
  split_ifs
  refine ⟨?_, ?_, hrate, rfl⟩
  · exact div_neg_of_neg_of_pos (mul_neg_of_neg_of_pos hrm (by norm_num))
      (by norm_num [NM_TO_FT])
  · exact mul_neg_of_neg_of_pos hrm (by norm_num)

/-- Claim C9, witness at tas 250 kt, bank -45°, course change 90°. -/
theorem C9_left_bank_negative_outputs_witness :
    (0:ℝ) < 250 ∧ (-85:ℝ) ≤ -45
    ∧ Real.tan ((-45:ℝ) * DEG_TO_RAD) ≤ -0.001
    ∧ (calculate_turn_performance 250 (-45) 90).radius_nm < 0
    ∧ (calculate_turn_performance 250 (-45) 90).radius_ft < 0
    ∧ (calculate_turn_performance 250 (-45) 90).turn_rate_dps < 0
    ∧ (calculate_turn_performance 250 (-45) 90).time_to_turn_sec = 999.9 := by
  have htan : Real.tan ((-45:ℝ) * DEG_TO_RAD) ≤ -0.001 := by
    have h : ((-45:ℝ) * DEG_TO_RAD) = -(Real.pi / 4) := by
      unfold DEG_TO_RAD
      norm_num
      ring
    rw [h, Real.tan_neg, Real.tan_pi_div_four]
    norm_num
  have h := C9_left_bank_negative_outputs 250 (-45) 90 (by norm_num) (by norm_num) htan
  exact ⟨by norm_num, by norm_num, htan, h.1, h.2.1, h.2.2.1, h.2.2.2⟩

/-- Claim C10: for every valid wind input the headwind and crosswind
components are an exact orthogonal decomposition of the echoed wind
speed: headwind² + crosswind² = total_wind² = wind_speed². -/
theorem C10_wind_orthogonal_decomposition (track heading wind_dir wind_speed : ℝ)
    (hs : 0 ≤ wind_speed) :
    (calculate_wind track heading wind_dir wind_speed).headwind ^ 2
        + (calculate_wind track heading wind_dir wind_speed).crosswind ^ 2
      = (calculate_wind track heading wind_dir wind_speed).total_wind ^ 2
    ∧ (calculate_wind track heading wind_dir wind_speed).total_wind ^ 2
      = wind_speed ^ 2 := by
  unfold calculate_wind
  constructor
  · simp only []
    have h := Real.sin_sq_add_cos_sq
      ((if normalize_angle (normalize_angle wind_dir - normalize_angle track) > 180.0
        then normalize_angle (normalize_angle wind_dir - normalize_angle track) - 360.0
        else normalize_angle (normalize_angle wind_dir - normalize_angle track))
        * DEG_TO_RAD)
    nlinarith [h]
  · rfl

/-- Claim C10, witness at track 90°, heading 85°, wind from 270° at
15 kt. -/
theorem C10_wind_orthogonal_decomposition_witness :
    (0:ℝ) ≤ 15
    ∧ ((calculate_wind 90 85 270 15).headwind ^ 2
          + (calculate_wind 90 85 270 15).crosswind ^ 2
        = (calculate_wind 90 85 270 15).total_wind ^ 2
      ∧ (calculate_wind 90 85 270 15).total_wind ^ 2 = (15:ℝ) ^ 2) :=
  ⟨by norm_num, C10_wind_orthogonal_decomposition 90 85 270 15 (by norm_num)⟩
